import Mathlib

/-!
Shallow embedding of `analyze_utils.py` (vec2text): the function
`load_inversion_model_and_trainer`, which rebuilds an inversion model and its
trainer from a checkpoint directory.  External collaborators (the transformers
argument parser, the embedder forward pass, the HF tokenizer, the corpus
loader, the default callback list, filesystem contents) are supplied through an
explicit environment record; the control flow, the configuration-record
mutations, the subsampling arithmetic, the embedding/whitening gating and the
callback filtering are translated line by line from the source.
-/

namespace AnalyzeUtils

/-- Modelled from the spec: `ModelArguments` from `run_args.py` is not under
`src/`; the spec describes it as one of "three disjoint configuration records
parsed from command-line-style tokens".  The fields are exactly the ones
`analyze_utils.py` reads (lines 43-69 and 98-110 of the source). -/
structure ModelArguments where
  model_name_or_path : String
  embedder_model_name : String
  max_seq_length : Nat
  num_repeat_tokens : Nat
  embedder_no_grad : Bool
  embedder_fake_with_zeros : Bool
  use_frozen_embeddings_as_input : Bool
  use_frozen_whitened_embeddings_as_input : Bool
  use_embedding_batch_norm : Bool
  encoder_dropout_disabled : Bool
  decoder_dropout_disabled : Bool
  freeze_strategy : String
  deriving Repr, DecidableEq, Inhabited

/-- Modelled from the spec: `DataTrainingArguments` from `run_args.py` is not
under `src/`; the fields are the ones `analyze_utils.py` reads
(`use_less_data`, line 89-90, and `max_eval_samples`, line 115-116). -/
structure DataTrainingArguments where
  use_less_data : Bool
  max_eval_samples : Option Nat
  deriving Repr, DecidableEq, Inhabited

/-- Modelled from the spec: `TrainingArguments` from `run_args.py` is not under
`src/`.  The named fields are the ones `analyze_utils.py` touches or reads
(lines 33, 36, 37, 39, 107); `otherFields` stands for the many remaining
hyperparameter fields of the record, which this file never touches. -/
structure TrainingArguments where
  dataloader_num_workers : Nat
  use_wandb : Bool
  report_to : List String
  seed : Nat
  per_device_train_batch_size : Nat
  otherFields : List (String × String)
  deriving Repr, DecidableEq, Inhabited

/-- One example of a tokenized dataset.  Tokenization (line 83-88) drops the
raw-text columns and leaves token ids; `embed_dataset_batch` (line 104-108)
later attaches a frozen embedding.  The embedding is modelled as a
one-dimensional rational vector. -/
structure Row where
  input_ids : List Nat
  frozen_embedding : Option Rat
  deriving Repr, DecidableEq, Inhabited

/-- The `datasets.DatasetDict` built at lines 76-79: a "train" and a
"validation" split, iterated in insertion order ("train" first). -/
structure DatasetDict where
  train : List Row
  validation : List Row
  deriving Repr, DecidableEq, Inhabited

/-- Modelled from the spec: `datasets.Dataset.select(range(n))` (an external
collaborator) keeps the first `n` rows and raises if `n` exceeds the split
size. `none` models the raised exception. -/
def select {α : Type} (d : List α) (n : Nat) : Option (List α) :=
  if n ≤ d.length then some (d.take n) else none

/-- Numeric value of a most-significant-first digit string (Python `int` on a
`\d+` match; 48 is the code point of the digit zero). -/
def digitsToNat : List Char → Nat → Nat
  | [], acc => acc
  | c :: cs, acc => digitsToNat cs (acc * 10 + (c.toNat - 48))

/-- Step number of a checkpoint directory entry: the transformers checkpoint
naming convention accepts exactly the names matching `^checkpoint-(\d+)$`
("checkpoint-" is 11 characters), and the step is the integer value of the
digit suffix. -/
def checkpointStep (name : String) : Option Nat :=
  let cs := name.toList
  let digits := cs.drop 11
  if cs.take 11 = ("checkpoint-").toList ∧ digits ≠ [] ∧ digits.all Char.isDigit then
    some (digitsToNat digits 0)
  else none

/-- Modelled from the spec: `transformers.trainer_utils.get_last_checkpoint`
(an external collaborator, line 28) "resolves the most recent checkpoint
sub-directory by a recency/ordering convention (e.g. highest step-number
suffix)" over a folder listing, and returns `None` when the folder holds no
checkpoint-named entry. -/
def get_last_checkpoint (folderEntries : List String) : Option String :=
  let checkpoints := folderEntries.filter (fun e => (checkpointStep e).isSome)
  checkpoints.argmax (fun e => (checkpointStep e).getD 0)

/-- Lines 33-37 of the source, which produce the `TrainingArguments` actually
in effect: line 33 zeroes `dataloader_num_workers` on the freshly parsed
record, line 35 then rebinds `training_args` to the record deserialized from
`training_args.bin` (discarding the parsed record, zeroed workers included),
and lines 36-37 force `use_wandb := false` and `report_to := []`. -/
def resolveTrainingArgs (parsed loaded : TrainingArguments) : TrainingArguments :=
  let training_args := { parsed with dataloader_num_workers := 0 }
  let training_args := loaded
  let training_args := { training_args with use_wandb := false }
  { training_args with report_to := [] }

/-- `int(n * .02)` from line 93 of the source.  In IEEE-754 double arithmetic
`n * 0.02` never falls below the true product, and its floor equals `n / 50`
for every dataset size below about `7.7e15`, so the Python expression is
embedded as exact natural floor division (`n * 2 / 100 = n / 50`). -/
def intTimesPointZeroTwo (n : Nat) : Nat :=
  n * 2 / 100

/-- Lines 92-94 of the source, for a single split: compute
`new_length = min(256, int(len(d) * .02))` and `select(range(new_length))`. -/
def subsampleSplit (d : List Row) : Option (List Row) :=
  let new_length := min 256 (intTimesPointZeroTwo d.length)
  select d new_length

/-- Error outcomes of the pipeline: each constructor is an uncaught Python
exception (or, for `pdbBreakpointHalt`, the indefinite halt at the
`pdb.set_trace()` on line 95 when no interactive user resumes it). -/
inductive PipelineError where
  /-- `HfArgumentParser.parse_args_into_dataclasses` failed (lines 30-31). -/
  | argumentParseError
  /-- `os.path.join(None, 'training_args.bin')` raised `TypeError` because
  `get_last_checkpoint` returned `None` (line 35). -/
  | osPathJoinNoneTypeError
  /-- `torch.load` failed on `training_args.bin` (line 35). -/
  | torchLoadError
  /-- tokenizer / embedder / encoder-decoder construction failed (lines 43-69). -/
  | modelLoadError
  /-- `load_dpr_corpus` failed (lines 76-79). -/
  | corpusLoadError
  /-- `Dataset.select` raised on out-of-range indices. -/
  | datasetSelectError
  /-- the interactive breakpoint on line 95 halted a non-interactive run. -/
  | pdbBreakpointHalt
  /-- `trainer._load_from_checkpoint` failed (line 137). -/
  | checkpointWeightLoadError
  deriving Repr, DecidableEq

/-- Lines 89-95 of the source.  Line 89 sets `data_args.use_less_data = True`,
so the `if` on line 90 is always taken and every split is subsampled.  The
loop runs over the dict keys in insertion order ("train", then "validation");
each iteration selects the subsample and then hits `pdb.set_trace()`, which
halts the process unless an interactive user resumes it. -/
def subsampleStep (interactive : Bool) (dd : DatasetDict) : Except PipelineError DatasetDict :=
  match subsampleSplit dd.train with
  | none => .error .datasetSelectError
  | some train =>
    if !interactive then .error .pdbBreakpointHalt
    else
      match subsampleSplit dd.validation with
      | none => .error .datasetSelectError
      | some validation =>
        if !interactive then .error .pdbBreakpointHalt
        else .ok { train := train, validation := validation }

/-- Rows of a split after `embed_dataset_batch` (lines 104-108): the embedder
forward pass, supplied as `embedFn`, attaches a frozen embedding to every
example. -/
def embedDatasetBatch (embedFn : List Nat → Rat) (d : List Row) : List Row :=
  d.map fun r => { r with frozen_embedding := some (embedFn r.input_ids) }

/-- Corpus-wide mean of the frozen embeddings over both splits. -/
def corpusMean (dd : DatasetDict) : Rat :=
  let embs := (dd.train ++ dd.validation).map (fun r => r.frozen_embedding.getD 0)
  embs.sum / (embs.length : Rat)

/-- Modelled from the spec: `whiten_embedded_dataset` from `tokenize_data.py`
is not under `src/`; the spec says it "computes corpus-wide mean and a
decorrelating linear transform from the embedding distribution and applies it
to every example's embedding vector, producing a zero-mean, decorrelated
representation".  In the one-dimensional embedding model this is mean
centering (decorrelation is trivial in one dimension). -/
def whiten_embedded_dataset (dd : DatasetDict) : DatasetDict :=
  let μ := corpusMean dd
  { train := dd.train.map (fun r => { r with frozen_embedding := r.frozen_embedding.map (fun e => e - μ) }),
    validation := dd.validation.map (fun r => { r with frozen_embedding := r.frozen_embedding.map (fun e => e - μ) }) }

/-- Lines 98-110 of the source: line 98 overwrites
`model_args.use_frozen_whitened_embeddings_as_input = True` before either flag
is consulted; then embeddings are materialized when either frozen-embedding
flag is set (line 100), and whitening is applied when the whitened flag is set
(line 109). -/
def preprocessEmbeddings (embedFn : List Nat → Rat) (model_args : ModelArguments)
    (tokenized_datasets : DatasetDict) : DatasetDict :=
  let model_args := { model_args with use_frozen_whitened_embeddings_as_input := true }
  let tokenized_datasets :=
    if model_args.use_frozen_embeddings_as_input || model_args.use_frozen_whitened_embeddings_as_input then
      { train := embedDatasetBatch embedFn tokenized_datasets.train,
        validation := embedDatasetBatch embedFn tokenized_datasets.validation }
    else tokenized_datasets
  if model_args.use_frozen_whitened_embeddings_as_input then
    whiten_embedded_dataset tokenized_datasets
  else tokenized_datasets

/-- Lines 112-117 of the source: bind the two splits, and when
`data_args.max_eval_samples` is set, truncate the evaluation split to
`min(len(eval_dataset), max_eval_samples)` with `select`. -/
def splitAndTruncate (data_args : DataTrainingArguments) (dd : DatasetDict) :
    Option (List Row × List Row) :=
  let train_dataset := dd.train
  let eval_dataset := dd.validation
  match data_args.max_eval_samples with
  | none => some (train_dataset, eval_dataset)
  | some m =>
    match select eval_dataset (min eval_dataset.length m) with
    | none => none
    | some e => some (train_dataset, e)

/-- A trainer callback: either the transformers `WandbCallback` or any other
callback, identified by name. -/
inductive TrainerCallback where
  | wandbCallback
  | otherCallback (cbName : String)
  deriving Repr, DecidableEq, Inhabited

/-- `isinstance(c, transformers.integrations.WandbCallback)` (line 132). -/
def TrainerCallback.isWandb : TrainerCallback → Bool
  | .wandbCallback => true
  | .otherCallback _ => false

/-- Modelled from the spec: `InversionTrainer` from `trainer.py` is not under
`src/`; the spec says the trainer "binds a model, two dataset splits, a
tokenizer, and a batch-collation function; owns a list of callbacks", and that
checkpoint state is then "loaded into it destructively".  Only the components
the claims speak about are carried; `checkpointLoaded` records whether
`_load_from_checkpoint` has run. -/
structure InversionTrainer where
  args : TrainingArguments
  train_dataset : List Row
  eval_dataset : List Row
  callbacks : List TrainerCallback
  checkpointLoaded : Bool
  deriving Repr, DecidableEq, Inhabited

/-- The external collaborators of `load_inversion_model_and_trainer`: the
directory listing of the checkpoint root, the outcome of argument parsing on
the split `args_str`, the record deserialized from `training_args.bin`, the
outcomes of model / corpus loading, the tokenizer and embedder forward
functions, the default callback list installed by the trainer constructor,
whether an interactive user can resume `pdb.set_trace()`, and whether loading
the checkpoint weights succeeds. -/
structure Env where
  checkpoint_folder_entries : List String
  parse_result : Option (ModelArguments × DataTrainingArguments × TrainingArguments)
  checkpoint_training_args : Option TrainingArguments
  model_load_ok : Bool
  nq_train_corpus : Option (List String)
  nq_dev_corpus : Option (List String)
  tokenize : String → List Nat
  embedFn : List Nat → Rat
  default_callbacks : List TrainerCallback
  interactive : Bool
  load_from_checkpoint_ok : Bool

/-- Tokenization of one raw-text example (lines 83-88): original columns are
removed, token ids are attached; no embedding exists yet. -/
def tokenizeRow (tokenize : String → List Nat) (text : String) : Row :=
  { input_ids := tokenize text, frozen_embedding := none }

/-- `load_inversion_model_and_trainer` (lines 26-138 of the source), as a
function of the environment of external collaborators.  Control flow follows
the source order: checkpoint resolution (28), argument parsing (30-31),
training-argument resolution (33-37) — noting that `os.path.join(None, ...)`
on line 35 raises `TypeError` when no checkpoint was found — model assembly
(43-70), corpus loading (76-79), tokenization (83-88), subsampling with the
leftover breakpoint (89-95), embedding and whitening (98-110), split binding
and eval truncation (112-117), trainer construction and Wandb-callback
filtering (123-132), and checkpoint-state loading (137), returning the
single trainer object (138). -/
def load_inversion_model_and_trainer (env : Env) : Except PipelineError InversionTrainer :=
  let checkpoint := get_last_checkpoint env.checkpoint_folder_entries
  match env.parse_result with
  | none => .error .argumentParseError
  | some (model_args, data_args, parsed_training_args) =>
    match checkpoint with
    | none => .error .osPathJoinNoneTypeError
    | some _ckpt =>
      match env.checkpoint_training_args with
      | none => .error .torchLoadError
      | some loaded =>
        let training_args := resolveTrainingArgs parsed_training_args loaded
        if !env.model_load_ok then .error .modelLoadError
        else
          match env.nq_train_corpus, env.nq_dev_corpus with
          | none, _ => .error .corpusLoadError
          | some _, none => .error .corpusLoadError
          | some nq_train, some nq_dev =>
            let tokenized_datasets : DatasetDict :=
              { train := nq_train.map (tokenizeRow env.tokenize),
                validation := nq_dev.map (tokenizeRow env.tokenize) }
            match subsampleStep env.interactive tokenized_datasets with
            | .error e => .error e
            | .ok subsampled =>
              let processed := preprocessEmbeddings env.embedFn model_args subsampled
              match splitAndTruncate data_args processed with
              | none => .error .datasetSelectError
              | some (train_dataset, eval_dataset) =>
                let trainer : InversionTrainer :=
                  { args := training_args,
                    train_dataset := train_dataset,
                    eval_dataset := eval_dataset,
                    callbacks := env.default_callbacks.filter (fun c => !c.isWandb),
                    checkpointLoaded := false }
                if !env.load_from_checkpoint_ok then .error .checkpointWeightLoadError
                else .ok { trainer with checkpointLoaded := true }

end AnalyzeUtils

namespace AnalyzeUtils

/-- A concrete parsed `ModelArguments` record, used by the concrete
environments below.  Both frozen-embedding flags are parsed `false`. -/
def defaultModelArguments : ModelArguments :=
  { model_name_or_path := "t5-base", embedder_model_name := "dpr", max_seq_length := 32,
    num_repeat_tokens := 16, embedder_no_grad := true, embedder_fake_with_zeros := false,
    use_frozen_embeddings_as_input := false, use_frozen_whitened_embeddings_as_input := false,
    use_embedding_batch_norm := false, encoder_dropout_disabled := false,
    decoder_dropout_disabled := false, freeze_strategy := "none" }

/-- A concrete parsed `DataTrainingArguments` record. -/
def defaultDataArguments : DataTrainingArguments :=
  { use_less_data := false, max_eval_samples := some 2 }

/-- A concrete freshly parsed `TrainingArguments` record. -/
def parsedTrainingArguments : TrainingArguments :=
  { dataloader_num_workers := 2, use_wandb := true, report_to := ["wandb"], seed := 0,
    per_device_train_batch_size := 8, otherFields := [("run_name", "parsed")] }

/-- A concrete `TrainingArguments` record as deserialized from the
checkpoint file `training_args.bin`, with a nonzero dataloader worker count. -/
def storedTrainingArguments : TrainingArguments :=
  { dataloader_num_workers := 4, use_wandb := true, report_to := ["wandb"], seed := 42,
    per_device_train_batch_size := 32, otherFields := [("run_name", "stored")] }

/-- A concrete environment in which every external collaborator succeeds and
an interactive user resumes the breakpoint: checkpoints at steps 100, 200 and
300, small corpora, a Wandb callback among the defaults. -/
def baseEnv : Env :=
  { checkpoint_folder_entries := [("checkpoint-100"), ("checkpoint-200"), ("checkpoint-300")],
    parse_result := some (defaultModelArguments, defaultDataArguments, parsedTrainingArguments),
    checkpoint_training_args := some storedTrainingArguments,
    model_load_ok := true,
    nq_train_corpus := some [("a"), ("bb")],
    nq_dev_corpus := some [("c")],
    tokenize := fun s => [s.length],
    embedFn := fun ids => ((ids.sum : Nat) : Rat),
    default_callbacks := [TrainerCallback.wandbCallback, TrainerCallback.otherCallback ("FlowCallback")],
    interactive := true,
    load_from_checkpoint_ok := true }

/-- The evaluation split after the optional truncation of lines 115-117: when
`max_eval_samples` is set, the first `min(len(eval_dataset), max_eval_samples)`
rows; otherwise the split unchanged. -/
def truncatedEval (data_args : DataTrainingArguments) (ev : List Row) : List Row :=
  match data_args.max_eval_samples with
  | none => ev
  | some m => ev.take (min ev.length m)

/-- The trainer delivered by a run of the pipeline on `env`, used to exhibit
concrete successful executions (`default` is only the fallback for failing
environments). -/
def okTrainer (env : Env) : InversionTrainer :=
  (load_inversion_model_and_trainer env).toOption.getD default

/-- A non-interactive environment whose checkpoint root holds no checkpoint
subdirectory at all. -/
def emptyRootEnv : Env :=
  { baseEnv with checkpoint_folder_entries := [], interactive := false }

/-- A non-interactive (`interactive := false`) but otherwise fully successful
environment. -/
def nonInteractiveEnv : Env :=
  { baseEnv with interactive := false }

/-- A two-example tokenized corpus whose embeddings have nonzero mean: the
token-id lists `[0]` and `[4]` embed, under `baseEnv.embedFn` (the token sum),
to `0` and `4`, so whitening shifts both by the mean `2`. -/
def meanShiftedDD : DatasetDict :=
  { train := [{ input_ids := [0], frozen_embedding := none },
              { input_ids := [4], frozen_embedding := none }],
    validation := [] }

end AnalyzeUtils

namespace AnalyzeUtils

/-- C1: for every dataset split `d` of size `N`, the subsampling step
succeeds — `select` never raises, in particular when `N ≥ 50` — and the
resulting split has size `min 256 ⌊0.02 * N⌋` (embedded as
`intTimesPointZeroTwo N`, see its doc comment). -/
theorem C1_subsampling_size (d : List Row) :
    ∃ r, subsampleSplit d = some r ∧ r.length = min 256 (intTimesPointZeroTwo d.length) := by
  have h2 : min 256 (intTimesPointZeroTwo d.length) ≤ d.length := by
    unfold intTimesPointZeroTwo; omega
  refine ⟨d.take (min 256 (intTimesPointZeroTwo d.length)), ?_, ?_⟩
  · simp [subsampleSplit, select, h2]
  · simp only [List.length_take]
    exact Nat.min_eq_left h2

/-- C7: the `TrainingArguments` in effect after lines 33-37 is exactly the
record deserialized from `training_args.bin` with `use_wandb := false` and
`report_to := []` forced; every other field of the deserialized record is
unchanged, and the result does not depend on the freshly parsed record at
all (second conjunct), so no parsed field survives. -/
theorem C7_training_args_override (parsed parsed' loaded : TrainingArguments) :
    resolveTrainingArgs parsed loaded = { loaded with use_wandb := false, report_to := [] } ∧
    resolveTrainingArgs parsed loaded = resolveTrainingArgs parsed' loaded :=
  ⟨rfl, rfl⟩

/-- C3: checkpoint resolution returns one of the checkpoint-named entries of
the root, its training-step suffix is maximal among all checkpoint-named
entries, and in particular on a root holding checkpoints at steps
{100, 200, 300} it selects the step-300 checkpoint. -/
theorem C3_last_checkpoint_is_max :
    (∀ entries e, get_last_checkpoint entries = some e →
      e ∈ entries ∧ (checkpointStep e).isSome = true) ∧
    (∀ entries e f n m, get_last_checkpoint entries = some e →
      checkpointStep e = some n → f ∈ entries → checkpointStep f = some m → m ≤ n) ∧
    get_last_checkpoint [("checkpoint-100"), ("checkpoint-200"), ("checkpoint-300")] =
      some ("checkpoint-300") := by
  refine ⟨?_, ?_, by decide⟩
  · intro entries e h
    simp only [get_last_checkpoint] at h
    have hmem : e ∈ (entries.filter (fun s => (checkpointStep s).isSome)).argmax
        (fun s => (checkpointStep s).getD 0) := Option.mem_def.mpr h
    have hmem2 := List.argmax_mem hmem
    have h3 := List.mem_filter.mp hmem2
    exact ⟨h3.1, h3.2⟩
  · intro entries e f n m h hn hf hm
    simp only [get_last_checkpoint] at h
    have hmem : e ∈ (entries.filter (fun s => (checkpointStep s).isSome)).argmax
        (fun s => (checkpointStep s).getD 0) := Option.mem_def.mpr h
    have hf2 : f ∈ entries.filter (fun s => (checkpointStep s).isSome) :=
      List.mem_filter.mpr ⟨hf, by simp [hm]⟩
    have hle := List.le_of_mem_argmax hf2 hmem
    simpa [hm, hn] using hle

/-- Witness for C3: at the concrete root {100, 200, 300} the theorem yields
that step 100 is bounded by the selected step 300 and that the selected entry
is a checkpoint-named member of the root. -/
theorem C3_last_checkpoint_is_max_witness :
    (100 : Nat) ≤ 300 ∧
    ("checkpoint-300") ∈ [("checkpoint-100"), ("checkpoint-200"), ("checkpoint-300")] ∧
    (checkpointStep ("checkpoint-300")).isSome = true :=
  ⟨C3_last_checkpoint_is_max.2.1 [("checkpoint-100"), ("checkpoint-200"), ("checkpoint-300")]
      ("checkpoint-300") ("checkpoint-100") 300 100 (by decide) (by decide) (by decide) (by decide),
    C3_last_checkpoint_is_max.1 [("checkpoint-100"), ("checkpoint-200"), ("checkpoint-300")]
      ("checkpoint-300") (by decide)⟩

end AnalyzeUtils

namespace AnalyzeUtils

/-- Subsampling one split never raises: the selected length is always within
bounds, so `select` returns the first `min 256 ⌊0.02 * N⌋` rows. -/
theorem subsampleSplit_eq (d : List Row) :
    subsampleSplit d = some (d.take (min 256 (intTimesPointZeroTwo d.length))) := by
  have h2 : min 256 (intTimesPointZeroTwo d.length) ≤ d.length := by
    unfold intTimesPointZeroTwo; omega
  simp [subsampleSplit, select, h2]

/-- With no interactive user, the subsampling loop of lines 89-95 always stops
at the `pdb.set_trace()` of its first iteration. -/
theorem subsampleStep_false (dd : DatasetDict) :
    subsampleStep false dd = .error .pdbBreakpointHalt := by
  simp [subsampleStep, subsampleSplit_eq]

/-- With an interactive user resuming both breakpoints, the subsampling loop
subsamples both splits. -/
theorem subsampleStep_true (dd : DatasetDict) :
    subsampleStep true dd = .ok
      { train := dd.train.take (min 256 (intTimesPointZeroTwo dd.train.length)),
        validation := dd.validation.take (min 256 (intTimesPointZeroTwo dd.validation.length)) } := by
  simp [subsampleStep, subsampleSplit_eq]

/-- Lines 112-117 never raise: the split binding yields the train split
untouched and the (optionally truncated) evaluation split. -/
theorem splitAndTruncate_eq (data_args : DataTrainingArguments) (dd : DatasetDict) :
    splitAndTruncate data_args dd = some (dd.train, truncatedEval data_args dd.validation) := by
  cases h : data_args.max_eval_samples with
  | none => simp [splitAndTruncate, truncatedEval, h]
  | some m =>
    have hle : min dd.validation.length m ≤ dd.validation.length := Nat.min_le_left _ _
    simp [splitAndTruncate, truncatedEval, h, select, hle]

/-- Inversion of a successful run: success requires an interactive user and a
successful weight load, and the returned trainer has the checkpoint loaded,
the Wandb-filtered callback list, and the training arguments resolved from the
checkpoint record. -/
theorem run_ok_inversion (env : Env) (t : InversionTrainer)
    (h : load_inversion_model_and_trainer env = .ok t) :
    (get_last_checkpoint env.checkpoint_folder_entries).isSome = true ∧
    env.interactive = true ∧ env.load_from_checkpoint_ok = true ∧
    t.checkpointLoaded = true ∧
    t.callbacks = env.default_callbacks.filter (fun c => !c.isWandb) ∧
    ∃ margs dargs ptargs loaded,
      env.parse_result = some (margs, dargs, ptargs) ∧
      env.checkpoint_training_args = some loaded ∧
      t.args = resolveTrainingArgs ptargs loaded := by
  unfold load_inversion_model_and_trainer at h
  rcases hp : env.parse_result with _ | ⟨margs, dargs, ptargs⟩
  · simp [hp] at h
  rcases hc : get_last_checkpoint env.checkpoint_folder_entries with _ | ckpt
  · simp [hp, hc] at h
  rcases ht : env.checkpoint_training_args with _ | loaded
  · simp [hp, hc, ht] at h
  cases hm : env.model_load_ok
  · simp [hp, hc, ht, hm] at h
  rcases htr : env.nq_train_corpus with _ | nqtr
  · simp [hp, hc, ht, hm, htr] at h
  rcases hdv : env.nq_dev_corpus with _ | nqdv
  · simp [hp, hc, ht, hm, htr, hdv] at h
  cases hi : env.interactive
  · simp [hp, hc, ht, hm, htr, hdv, hi, subsampleStep_false] at h
  cases hl : env.load_from_checkpoint_ok
  · simp [hp, hc, ht, hm, htr, hdv, hi, hl, subsampleStep_true, splitAndTruncate_eq] at h
  simp only [hp, hc, ht, hm, htr, hdv, hi, hl, subsampleStep_true, splitAndTruncate_eq,
    Bool.not_true, Bool.not_false, if_false, if_true, Except.ok.injEq] at h
  rw [if_neg (by decide), if_neg (by decide)] at h
  injection h with h2
  subst h2
  exact ⟨rfl, rfl, rfl, rfl, rfl, margs, dargs, ptargs, loaded, rfl, rfl, rfl⟩

end AnalyzeUtils

namespace AnalyzeUtils

/-- C2 (amended): a non-interactive invocation never returns a trainer, and
whenever every stage before the subsampling loop succeeds (checkpoint
resolution, argument parsing, `torch.load` of the training arguments, model
assembly, corpus loading), a non-interactive invocation halts at the
interactive breakpoint inside the unconditionally executed subsampling loop.
(As literally stated the claim fails: an invocation can abort before reaching
the breakpoint, see the counterexample.) -/
theorem C2_nonInteractive_never_returns (env : Env) (hint : env.interactive = false) :
    (∀ t, load_inversion_model_and_trainer env ≠ .ok t) ∧
    ((get_last_checkpoint env.checkpoint_folder_entries).isSome = true →
      env.parse_result.isSome = true →
      env.checkpoint_training_args.isSome = true →
      env.model_load_ok = true →
      env.nq_train_corpus.isSome = true →
      env.nq_dev_corpus.isSome = true →
      load_inversion_model_and_trainer env = .error .pdbBreakpointHalt) := by
  constructor
  · intro t hcontra
    have hinv := run_ok_inversion env t hcontra
    rw [hint] at hinv
    exact Bool.false_ne_true hinv.2.1
  · intro h1 h2 h3 h4 h5 h6
    obtain ⟨ck, hck⟩ := Option.isSome_iff_exists.mp h1
    obtain ⟨⟨margs, dargs, ptargs⟩, hp⟩ := Option.isSome_iff_exists.mp h2
    obtain ⟨loaded, ht⟩ := Option.isSome_iff_exists.mp h3
    obtain ⟨nqtr, htr⟩ := Option.isSome_iff_exists.mp h5
    obtain ⟨nqdv, hdv⟩ := Option.isSome_iff_exists.mp h6
    unfold load_inversion_model_and_trainer
    simp [hp, hck, ht, h4, htr, hdv, hint, subsampleStep_false]

/-- Witness for C2 (amended): the concrete non-interactive but otherwise
fully successful environment halts at the breakpoint. -/
theorem C2_nonInteractive_never_returns_witness :
    load_inversion_model_and_trainer nonInteractiveEnv = .error .pdbBreakpointHalt :=
  (C2_nonInteractive_never_returns nonInteractiveEnv rfl).2 (by decide) (by decide)
    (by decide) (by decide) (by decide) (by decide)

/-- Counterexample to C2 as stated: a non-interactive invocation on an empty
checkpoint root does not reach the breakpoint — it aborts earlier, at
`os.path.join(None, 'training_args.bin')` on line 35. -/
theorem C2_counterexample :
    emptyRootEnv.interactive = false ∧
    load_inversion_model_and_trainer emptyRootEnv = .error .osPathJoinNoneTypeError ∧
    PipelineError.osPathJoinNoneTypeError ≠ PipelineError.pdbBreakpointHalt :=
  ⟨rfl, rfl, by decide⟩

/-- C4: the zeroing of `dataloader_num_workers` on line 33 is dead — line 35
rebinds `training_args` to the record loaded from the checkpoint, so the
worker count in effect is whatever `training_args.bin` stored (first
conjunct), and on the concrete environment whose stored record has 4 workers
the returned trainer's arguments keep 4 workers, contradicting the claim that
the count is forced to zero. -/
theorem C4_worker_count_not_zero :
    (∀ parsed loaded, (resolveTrainingArgs parsed loaded).dataloader_num_workers =
      loaded.dataloader_num_workers) ∧
    storedTrainingArguments.dataloader_num_workers = 4 ∧
    load_inversion_model_and_trainer baseEnv = .ok (okTrainer baseEnv) ∧
    (okTrainer baseEnv).args.dataloader_num_workers = 4 :=
  ⟨fun _ _ => rfl, rfl, rfl, rfl⟩

/-- C5 (amended): embedding materialization and whitening are applied
unconditionally — line 98 overwrites
`model_args.use_frozen_whitened_embeddings_as_input = True` before either
flag is consulted, so for every parsed `ModelArguments` the result is the
whitened embedded dataset. -/
theorem C5_whitening_unconditional (embedFn : List Nat → Rat)
    (model_args : ModelArguments) (dd : DatasetDict) :
    preprocessEmbeddings embedFn model_args dd =
      whiten_embedded_dataset
        { train := embedDatasetBatch embedFn dd.train,
          validation := embedDatasetBatch embedFn dd.validation } := by
  simp [preprocessEmbeddings]

/-- Counterexample to C5 as stated: with both frozen-embedding flags parsed
`false`, the embedding vectors do not pass through unchanged — the embedding
and whitening transforms are applied anyway. -/
theorem C5_counterexample :
    defaultModelArguments.use_frozen_whitened_embeddings_as_input = false ∧
    defaultModelArguments.use_frozen_embeddings_as_input = false ∧
    (preprocessEmbeddings baseEnv.embedFn defaultModelArguments meanShiftedDD).train.map
        Row.frozen_embedding ≠ meanShiftedDD.train.map Row.frozen_embedding ∧
    preprocessEmbeddings baseEnv.embedFn defaultModelArguments meanShiftedDD ≠ meanShiftedDD :=
  ⟨rfl, rfl, by decide, by decide⟩

/-- C6: every trainer returned by a successful run has no Wandb callback left
in its callback list, whatever default callbacks the constructor installed
(line 132 filters them out by type check). -/
theorem C6_no_wandb_callback (env : Env) (t : InversionTrainer)
    (h : load_inversion_model_and_trainer env = .ok t) :
    ∀ c ∈ t.callbacks, c.isWandb = false := by
  intro c hc
  have hinv := run_ok_inversion env t h
  rw [hinv.2.2.2.2.1] at hc
  have hfc := (List.mem_filter.mp hc).2
  simpa using hfc

/-- Witness for C6: on the concrete successful environment, whose default
callback list contains a Wandb callback, the theorem applies to the returned
trainer and its remaining callback. -/
theorem C6_no_wandb_callback_witness :
    (TrainerCallback.otherCallback ("FlowCallback")).isWandb = false :=
  C6_no_wandb_callback baseEnv (okTrainer baseEnv) rfl
    (TrainerCallback.otherCallback ("FlowCallback")) (by decide)

/-- C8: the eval-truncation step never raises; it binds the training split
unchanged, and the evaluation split bound alongside it is unchanged when
`max_eval_samples` is `None` and has size `min(len(eval_dataset),
max_eval_samples)` when it is set. -/
theorem C8_eval_truncation (data_args : DataTrainingArguments) (dd : DatasetDict) :
    splitAndTruncate data_args dd = some (dd.train, truncatedEval data_args dd.validation) ∧
    (match data_args.max_eval_samples with
      | none => truncatedEval data_args dd.validation = dd.validation
      | some m => (truncatedEval data_args dd.validation).length = min dd.validation.length m) := by
  refine ⟨splitAndTruncate_eq data_args dd, ?_⟩
  cases h : data_args.max_eval_samples with
  | none => simp [truncatedEval, h]
  | some m =>
    simp only [truncatedEval, h, List.length_take]
    omega

/-- C9: when the checkpoint root holds no valid checkpoint subdirectory,
`load_inversion_model_and_trainer` never returns a trainer (the run aborts
with an uncaught error — argument-parse failure or the `TypeError` from
`os.path.join(None, ...)` — propagated to the caller). -/
theorem C9_no_checkpoint_fails (env : Env)
    (h : get_last_checkpoint env.checkpoint_folder_entries = none) :
    ∀ t, load_inversion_model_and_trainer env ≠ .ok t := by
  intro t hcontra
  have hinv := (run_ok_inversion env t hcontra).1
  rw [h] at hinv
  simp at hinv

/-- Witness for C9: on the concrete environment with an empty checkpoint root,
the run does not return the (arbitrary concrete) trainer. -/
theorem C9_no_checkpoint_fails_witness :
    load_inversion_model_and_trainer emptyRootEnv ≠ .ok default :=
  C9_no_checkpoint_fails emptyRootEnv (by decide) default

/-- C10: on success the pipeline returns a single `InversionTrainer` value
(the success type of the embedding, matching the single `return trainer` on
line 138 rather than the declared tuple annotation), and that trainer is
ready to use: the checkpoint state has been loaded into it. -/
theorem C10_returns_single_loaded_trainer (env : Env) (t : InversionTrainer)
    (h : load_inversion_model_and_trainer env = .ok t) :
    t.checkpointLoaded = true ∧ env.load_from_checkpoint_ok = true := by
  have hinv := run_ok_inversion env t h
  exact ⟨hinv.2.2.2.1, hinv.2.2.1⟩

/-- Witness for C10: the trainer returned on the concrete successful
environment has the checkpoint loaded. -/
theorem C10_returns_single_loaded_trainer_witness :
    (okTrainer baseEnv).checkpointLoaded = true ∧ baseEnv.load_from_checkpoint_ok = true :=
  C10_returns_single_loaded_trainer baseEnv (okTrainer baseEnv) rfl

end AnalyzeUtils
